import Mathlib

/-!
Verification of the sleep-debt tracker's rolling-window statistics and
adaptive synchronization engine, shallowly embedded from the Python
sources (`db/database.py`, `etl/sleep_debt.py`, `etl/auto_sync.py`,
`backend/main.py`).  Calendar dates are modelled as integers (day
numbers), clock times as seconds after midnight, and hours as rationals.
The DuckDB record store is modelled as two lists of typed rows (the
`sleep_data` and `example_sleep_data` tables); the external Garmin
syncer is an oracle transforming the store.
-/

/-- One stored sleep row (tables `sleep_data` / `example_sleep_data` in
`db/database.py`): `date` is the primary key; `sleep_hours` is a nullable
REAL column (the recalculation sweep guards it against NULL), while
`target_hours` and `debt` are always written by the sync paths. -/
structure Row where
  date : ℤ
  sleep_hours : Option ℚ
  target_hours : ℚ
  debt : ℚ
deriving DecidableEq

/-- The record store: the two origin partitions (the two DuckDB tables). -/
structure Store where
  sleep_data : List Row
  example_sleep_data : List Row
deriving DecidableEq

/-- Embeds the existence check `SELECT COUNT(*) FROM t WHERE date = ? > 0`
run against `today` by the window-framing functions. -/
def todayExists (rows : List Row) (today : ℤ) : Bool :=
  rows.any fun r => r.date == today

/-- Rows of a table satisfying the SQL range filter
`date >= lo AND date <= hi`. -/
def windowRows (rows : List Row) (lo hi : ℤ) : List Row :=
  rows.filter fun r => decide (lo ≤ r.date) && decide (r.date ≤ hi)

/-- Result shape of `get_sleep_statistics` (db/database.py lines 290-398). -/
structure Stats where
  total_sleep_hours : ℚ
  target_sleep_hours : ℚ
  current_debt : ℚ
  days_tracked : ℕ
  has_today_data : Bool
deriving DecidableEq

/-- The table selected by the `include_example` flag
(`example_sleep_data` when true, `sleep_data` when false), as in the
if/else on the flag in each db/database.py query function. -/
def partitionOf (s : Store) (include_example : Bool) : List Row :=
  if include_example then s.example_sleep_data else s.sleep_data

/-- Embeds `get_sleep_statistics` (db/database.py lines 290-398).
`include_example` selects the table; `today` is `date.today()`; `n` is
`STATS_WINDOW_DAYS()`.  Today's existence is checked in the selected
table only; the window is `[today-(n-1), today]` when today exists, else
`[today-n, today-1]`; aggregates are SQL SUM/COUNT over the window, with
the `days_tracked == 0` branch returning neutral zeros.  A NULL
`sleep_hours` contributes nothing to SUM, i.e. 0. -/
def get_sleep_statistics (s : Store) (include_example : Bool) (today n : ℤ) : Stats :=
  let table := partitionOf s include_example
  let te := todayExists table today
  let lo := if te then today - (n - 1) else today - n
  let hi := if te then today else today - 1
  let inw := windowRows table lo hi
  if inw.length = 0 then ⟨0, 0, 0, 0, te⟩
  else
    ⟨(inw.map fun r => r.sleep_hours.getD 0).sum,
     (inw.map fun r => r.target_hours).sum,
     (inw.map fun r => r.debt).sum,
     inw.length, te⟩

/-- Embeds `count_available_days_in_window` (db/database.py lines
401-466): same window framing as `get_sleep_statistics` (today checked
in the selected table only), returning only the row count. -/
def count_available_days_in_window (s : Store) (include_example : Bool)
    (today window_days : ℤ) : ℕ :=
  let table := partitionOf s include_example
  let te := todayExists table today
  let lo := if te then today - (window_days - 1) else today - window_days
  let hi := if te then today else today - 1
  (windowRows table lo hi).length

/-- Embeds `count_example_data_in_window` (db/database.py lines
531-576).  Unlike the other window-framing functions, today's existence
is checked in EITHER table (`sleep_data` OR `example_sleep_data`); the
count itself ranges over `example_sleep_data` only. -/
def count_example_data_in_window (s : Store) (today window_days : ℤ) : ℕ :=
  let te := todayExists s.sleep_data today || todayExists s.example_sleep_data today
  let lo := if te then today - (window_days - 1) else today - window_days
  let hi := if te then today else today - 1
  (windowRows s.example_sleep_data lo hi).length

/-- Embeds `count_total_real_data_days` (db/database.py lines 469-503):
distinct real-data dates in the fixed 35-day lookback
`[today-34, today]`. -/
def count_total_real_data_days (s : Store) (today : ℤ) : ℕ :=
  ((windowRows s.sleep_data (today - 34) today).map fun r => r.date).dedup.length

/-- Aggregate over an explicitly given inclusive date window, following
the spec's step 3-5 wording (sum of sleepHours, targetHours, debt and
count of days present; an empty window yields zeros).  Used to state the
window-framing claims against the embedded code. -/
def specWindowAggregate (rows : List Row) (lo hi : ℤ) (te : Bool) : Stats :=
  let w := windowRows rows lo hi
  ⟨(w.map fun r => r.sleep_hours.getD 0).sum,
   (w.map fun r => r.target_hours).sum,
   (w.map fun r => r.debt).sum,
   w.length, te⟩

/-- A sleep record as passed to `calculate_sleep_debt`
(etl/sleep_debt.py): a Python dict that may or may not carry each of the
`debt`, `sleep_hours` and `target_hours` keys, modelled with `Option`
fields. -/
structure PySample where
  debt : Option ℚ
  sleep_hours : Option ℚ
  target_hours : Option ℚ
deriving DecidableEq

/-- Embeds `calculate_daily_debt` (etl/sleep_debt.py lines 38-50). -/
def calculate_daily_debt (sleep_hours target_hours : ℚ) : ℚ :=
  target_hours - sleep_hours

/-- Embeds `calculate_sleep_debt` (etl/sleep_debt.py lines 5-35).
`globalTarget` is `TARGET_SLEEP_HOURS()`, the current effective target.
The branch is decided by whether the FIRST record carries a `debt` key:
if so, every record contributes `record.get('debt', 0.0)`; otherwise
every record contributes
`calculate_daily_debt(record.get('sleep_hours', 0.0),
record.get('target_hours', TARGET_SLEEP_HOURS()))`. -/
def calculate_sleep_debt (globalTarget : ℚ) (sleep_data : List PySample) : ℚ :=
  match sleep_data with
  | [] => 0
  | first :: _ =>
    if first.debt.isSome then
      (sleep_data.map fun r => r.debt.getD 0).sum
    else
      (sleep_data.map fun r =>
        calculate_daily_debt (r.sleep_hours.getD 0) (r.target_hours.getD globalTarget)).sum

/-- Cumulative debt as the spec words it: per sample, its `debt` if
precomputed, otherwise derived via `dailyDebt` from the sample's own
fields (never the global current target).  Stated for comparison with
the embedded `calculate_sleep_debt`. -/
def specCumulativeDebt (samples : List PySample) : ℚ :=
  (samples.map fun r =>
    match r.debt with
    | some d => d
    | none => calculate_daily_debt (r.sleep_hours.getD 0) (r.target_hours.getD 0)).sum

/-- The per-row body of the recalculation sweep
(db/database.py lines 792-810 and 826-844): set `target_hours` to the
new target and `debt = target_hours - sleep_hours`, with a NULL
`sleep_hours` read as `0.0`. -/
def recalcRow (target_hours : ℚ) (r : Row) : Row :=
  ⟨r.date, r.sleep_hours, target_hours, target_hours - r.sleep_hours.getD 0⟩

/-- The sweep skeleton of `recalculate_debt_for_all_records`: each row's
update is attempted inside its own try/except; a failing row (`none`) is
skipped and left unchanged while the sweep continues, and only
successful updates are counted. -/
def recalcSweep (upd : Row → Option Row) : List Row → ℕ × List Row
  | [] => (0, [])
  | r :: rs =>
    let rest := recalcSweep upd rs
    match upd r with
    | some r2 => (rest.1 + 1, r2 :: rest.2)
    | none => (rest.1, r :: rest.2)

/-- Embeds `recalculate_debt_for_all_records` (db/database.py lines
763-849): both tables are swept with the per-row update `recalcRow`
(which, on the typed schema, always succeeds), and the counts are
accumulated across both tables. -/
def recalculate_debt_for_all_records (target_hours : ℚ) (s : Store) : ℕ × Store :=
  let real := recalcSweep (fun r => some (recalcRow target_hours r)) s.sleep_data
  let ex := recalcSweep (fun r => some (recalcRow target_hours r)) s.example_sleep_data
  (real.1 + ex.1, ⟨real.2, ex.2⟩)

/-- The fixed daily schedule of `_get_next_sync_times`
(etl/auto_sync.py lines 19-45), in seconds after midnight:
07:00, 07:30, 08:00, 08:30, 09:00, 09:30, 10:00, 11:00, 12:00, 13:00. -/
def sync_times : List ℕ :=
  [25200, 27000, 28800, 30600, 32400, 34200, 36000, 39600, 43200, 46800]

/-- Embeds `_should_run_sync_now` (etl/auto_sync.py lines 48-83).
`t` is the current local time in seconds after midnight.  Outside
[07:00, 13:00] nothing is due and the next sync is tomorrow 07:00.
Otherwise the first scheduled instant at or after `t` is selected and
the attempt is due when `abs(t - instant) <= 300` seconds. -/
def should_run_sync_now (t : ℕ) : Bool × ℕ :=
  if t < 25200 ∨ 46800 < t then (false, 25200)
  else
    match sync_times.find? (fun s => decide (t ≤ s)) with
    | none => (false, 25200)
    | some s => (decide (((t : ℤ) - (s : ℤ)).natAbs ≤ 300), s)

/-- The scheduler's process-local state (`_today_data_found`,
`_last_check_date` in etl/auto_sync.py). -/
structure SchedState where
  todayFound : Bool
  lastChecked : Option ℤ
deriving DecidableEq

/-- Environment of one scheduler-loop iteration: the wall-clock date and
time at the iteration, and the outcomes the external collaborators would
produce if consulted (example-data mode, today's presence in the real
table before and after a sync, and the sync result). -/
structure SchedEnv where
  today : ℤ
  nowTime : ℕ
  useDummy : Bool
  hasTodayBefore : Bool
  syncSuccess : Bool
  hasTodayAfter : Bool
deriving DecidableEq

/-- Embeds `_perform_auto_sync` (etl/auto_sync.py lines 86-135).
Returns the updated state, the reported success and whether the Syncer
(`sync_sleep_data`) was invoked.  Example mode skips entirely; if
today's real data already exists the flag is set without invoking the
Syncer; otherwise the Syncer runs for 1 day and the flag is set only
when the sync succeeds and today's data is then present. -/
def perform_auto_sync (e : SchedEnv) (st : SchedState) : SchedState × Bool × Bool :=
  if e.useDummy then (st, false, false)
  else if e.hasTodayBefore then (⟨true, some e.today⟩, true, false)
  else if e.syncSuccess then
    if e.hasTodayAfter then (⟨true, some e.today⟩, true, true)
    else (st, false, true)
  else (st, false, true)

/-- One iteration of `_auto_sync_loop` (etl/auto_sync.py lines 138-200):
day-rollover reset of `todayFound`, the satisfied-day wait short-circuit
(the wait until tomorrow 07:00 is positive whenever `nowTime` is a valid
time of day), then the due-now check and, when due, `_perform_auto_sync`.
Returns the new state and whether the Syncer was invoked. -/
def sched_step (e : SchedEnv) (st : SchedState) : SchedState × Bool :=
  let st1 : SchedState :=
    match st.lastChecked with
    | some d => if d ≠ e.today then ⟨false, some e.today⟩ else ⟨st.todayFound, some e.today⟩
    | none => ⟨st.todayFound, some e.today⟩
  let wait : ℤ := ((86400 : ℤ) - (e.nowTime : ℤ)) + 25200
  if st1.todayFound ∧ 0 < wait then (st1, false)
  else
    let sr := should_run_sync_now e.nowTime
    if sr.1 then
      let pr := perform_auto_sync e st1
      (pr.1, pr.2.2)
    else (st1, false)

/-- Outcome of one `sync_sleep_data` call as observed by
`update_settings`: plain success, plain failure (`success=False`), or a
raised exception (caught by the surrounding try/except). -/
inductive SyncRes where
  | ok
  | failed
  | exn
deriving DecidableEq

/-- The external Syncer collaborator (`sync_sleep_data`), an oracle:
given the requested day count, the example-data flag and the current
store, it reports an outcome and the (possibly partially written)
resulting store. -/
structure Syncer where
  run : ℤ → Bool → Store → SyncRes × Store

/-- The request body of `PUT /api/settings` (backend/models.py
`SettingsRequest`). -/
structure SettingsRequest where
  target_sleep_hours : ℚ
  stats_window_days : ℤ
  use_dummy_data : Bool
deriving DecidableEq

/-- Environment readings resolved before the update: the effective
current target (`get_target_sleep_hours()`), the stored user settings
row if any (`(stats_window_days, use_dummy_data)` from
`get_user_settings_from_db()`), and the `.env` default window used by
`STATS_WINDOW_DAYS()` when no row exists. -/
structure EnvCfg where
  current_target : ℚ
  current_settings : Option (ℤ × Bool)
  env_window : ℤ
deriving DecidableEq

/-- The value of `STATS_WINDOW_DAYS()` during the update: the stored
window if a settings row exists, else the `.env` default. -/
def stats_window_setting (cfg : EnvCfg) : ℤ :=
  match cfg.current_settings with
  | some p => p.1
  | none => cfg.env_window

/-- Response category of `update_settings`: the success payload
(target, possibly downgraded window, example flag), the 400 validation
rejection, or the 400 insufficient-data rejection. -/
inductive UpdateResult where
  | ok (target : ℚ) (window : ℤ) (use_dummy : Bool)
  | validationError
  | insufficientData
deriving DecidableEq

/-- Observable outcome of one `update_settings` call: the HTTP-level
result, the final store, how many times the Syncer was invoked, whether
`update_user_settings` persisted the requested settings, and the
recalculation count when the debt sweep ran. -/
structure UpdateOutcome where
  result : UpdateResult
  store : Store
  syncCalls : ℕ
  settingsSaved : Bool
  recalc : Option ℕ
deriving DecidableEq

/-- State after the three pre-fallback sync branches of
`update_settings` (backend/main.py lines 302-414): the store, the last
recorded `available_days`, the `has_synced` flag and the number of
Syncer invocations so far. -/
structure PreSync where
  store : Store
  avail : ℕ
  hasSynced : Bool
  calls : ℕ
deriving DecidableEq

/-- Embeds backend/main.py lines 302-414: the initial availability
checks, the force-sync branch, the dummy-to-real transition branch and
the stale-example-data branch, in source order.  Each branch syncs at
most once, guarded by the `has_synced` flag, and recounts
`available_days` exactly where the source does. -/
def pre_sync_stages (sy : Syncer) (cfg : EnvCfg) (today : ℤ)
    (req : SettingsRequest) (s0 : Store) : PreSync :=
  let cw := stats_window_setting cfg
  let current_dummy := (cfg.current_settings.getD (7, false)).2
  let required := req.stats_window_days
  let avail0 := count_available_days_in_window s0 req.use_dummy_data today required
  let thd0 := (get_sleep_statistics s0 req.use_dummy_data today cw).has_today_data
  let total_real := count_total_real_data_days s0 today
  let stA : PreSync :=
    if ((avail0 : ℤ) < required ∧ (total_real : ℤ) < required) ∧ req.use_dummy_data = false then
      let days := if thd0 then required else required + 1
      match sy.run days false s0 with
      | (.ok, s1) =>
        ⟨s1, count_available_days_in_window s1 req.use_dummy_data today required, true, 1⟩
      | (.failed, s1) => ⟨s1, avail0, false, 1⟩
      | (.exn, s1) => ⟨s1, avail0, false, 1⟩
    else ⟨s0, avail0, false, 0⟩
  let stB : PreSync :=
    if current_dummy = true ∧ req.use_dummy_data = false ∧ stA.hasSynced = false then
      if (total_real : ℤ) < required then
        let thd := (get_sleep_statistics stA.store req.use_dummy_data today cw).has_today_data
        let days := if thd then required else required + 1
        match sy.run days false stA.store with
        | (.ok, s1) =>
          ⟨s1, count_available_days_in_window s1 false today required, true, stA.calls + 1⟩
        | (.failed, s1) => ⟨s1, stA.avail, false, stA.calls + 1⟩
        | (.exn, s1) => ⟨s1, stA.avail, false, stA.calls + 1⟩
      else stA
    else stA
  if req.use_dummy_data = false then
    let exd := count_example_data_in_window stB.store today required
    if 0 < exd ∧ stB.hasSynced = false then
      let availR := count_available_days_in_window stB.store req.use_dummy_data today required
      if (total_real : ℤ) < required then
        let thd := (get_sleep_statistics stB.store false today cw).has_today_data
        let days := if thd then required else required + 1
        match sy.run days false stB.store with
        | (.ok, s1) =>
          ⟨s1, count_available_days_in_window s1 req.use_dummy_data today required, true,
            stB.calls + 1⟩
        | (.failed, s1) => ⟨s1, availR, false, stB.calls + 1⟩
        | (.exn, s1) => ⟨s1, availR, false, stB.calls + 1⟩
      else ⟨stB.store, availR, stB.hasSynced, stB.calls⟩
    else stB
  else stB

/-- The fixed fallback window sequence of backend/main.py line 440:
`[14, 7]` for a requested window of 30, `[7]` for 14, empty otherwise. -/
def candidates (w : ℤ) : List ℤ :=
  if w = 30 then [14, 7] else if w = 14 then [7] else []

/-- Result of the fallback loop: the (possibly downgraded) window, the
last recorded `available_days`, the store and the Syncer calls made. -/
structure FbState where
  window : ℤ
  avail : ℕ
  store : Store
  calls : ℕ
deriving DecidableEq

/-- Embeds the fallback loop of `update_settings` (backend/main.py lines
442-463).  For each candidate window `c` (in order) the Syncer is run
for `c` days (`c+1` when today lacks data).  On success the candidate's
availability is recounted and the candidate accepted if it covers `c`;
on a raised exception availability is still recounted (with the default
`include_example=False`) and acceptance checked; on plain failure
(`success=False`) the candidate is skipped with NO availability check.
Without acceptance the window and `available_days` are left unchanged. -/
def fallback_loop (sy : Syncer) (use_dummy : Bool) (today : ℤ) (today_has_data : Bool) :
    List ℤ → Store → ℤ → ℕ → FbState
  | [], s, w, a => ⟨w, a, s, 0⟩
  | c :: rest, s, w, a =>
    let days := if today_has_data then c else c + 1
    match sy.run days false s with
    | (.ok, s1) =>
      let fa := count_available_days_in_window s1 use_dummy today c
      if (c : ℤ) ≤ (fa : ℤ) then ⟨c, fa, s1, 1⟩
      else
        let r := fallback_loop sy use_dummy today today_has_data rest s1 w a
        ⟨r.window, r.avail, r.store, r.calls + 1⟩
    | (.failed, s1) =>
      let r := fallback_loop sy use_dummy today today_has_data rest s1 w a
      ⟨r.window, r.avail, r.store, r.calls + 1⟩
    | (.exn, s1) =>
      let fa := count_available_days_in_window s1 false today c
      if (c : ℤ) ≤ (fa : ℤ) then ⟨c, fa, s1, 1⟩
      else
        let r := fallback_loop sy use_dummy today today_has_data rest s1 w a
        ⟨r.window, r.avail, r.store, r.calls + 1⟩

/-- The main sync attempt of backend/main.py lines 425-436: one
real-data sync sized to the window (+1 when today lacks data);
`available_days` is recounted only when the sync reports success. -/
def main_sync_attempt (sy : Syncer) (w today : ℤ) (thd : Bool)
    (s : Store) (avail0 : ℕ) : Store × ℕ :=
  match sy.run (if thd then w else w + 1) false s with
  | (.ok, s1) => (s1, count_available_days_in_window s1 false today w)
  | (.failed, s1) => (s1, avail0)
  | (.exn, s1) => (s1, avail0)

/-- Embeds backend/main.py lines 424-470 given that the guard of line
424 held: the main sync attempt, then, if availability still falls
short of the requested window, the fallback loop followed by the `< 7`
insufficiency check.  The Boolean is the insufficiency verdict. -/
def main_fallback_stage (sy : Syncer) (req : SettingsRequest) (today : ℤ)
    (thd : Bool) (s : Store) (avail0 : ℕ) : FbState × Bool :=
  let w := req.stats_window_days
  let m := main_sync_attempt sy w today thd s avail0
  if (m.2 : ℤ) < w then
    let fb := fallback_loop sy req.use_dummy_data today thd (candidates w) m.1 w m.2
    (⟨fb.window, fb.avail, fb.store, fb.calls + 1⟩, decide ((fb.avail : ℤ) < 7))
  else (⟨w, m.2, m.1, 1⟩, false)

/-- The `today_has_data` flag of backend/main.py lines 420-421: read
from `get_sleep_statistics` on the store left by the pre-fallback
branches. -/
def thd_of (sy : Syncer) (cfg : EnvCfg) (today : ℤ)
    (req : SettingsRequest) (s0 : Store) : Bool :=
  (get_sleep_statistics (pre_sync_stages sy cfg today req s0).store
    req.use_dummy_data today (stats_window_setting cfg)).has_today_data

/-- The main-sync-plus-fallback stage applied at its call site in
`update_settings`. -/
def mfb_of (sy : Syncer) (cfg : EnvCfg) (today : ℤ)
    (req : SettingsRequest) (s0 : Store) : FbState × Bool :=
  main_fallback_stage sy req today (thd_of sy cfg today req s0)
    (pre_sync_stages sy cfg today req s0).store
    (pre_sync_stages sy cfg today req s0).avail

/-- The main sync attempt applied at its call site in
`update_settings` (backend/main.py lines 425-436). -/
def msa_of (sy : Syncer) (cfg : EnvCfg) (today : ℤ)
    (req : SettingsRequest) (s0 : Store) : Store × ℕ :=
  main_sync_attempt sy req.stats_window_days today (thd_of sy cfg today req s0)
    (pre_sync_stages sy cfg today req s0).store
    (pre_sync_stages sy cfg today req s0).avail

/-- The fallback loop applied at its call site in `update_settings`
(backend/main.py lines 439-463), starting from the store and
availability left by the main sync attempt. -/
def fbl_of (sy : Syncer) (cfg : EnvCfg) (today : ℤ)
    (req : SettingsRequest) (s0 : Store) : FbState :=
  fallback_loop sy req.use_dummy_data today (thd_of sy cfg today req s0)
    (candidates req.stats_window_days) (msa_of sy cfg today req s0).1
    req.stats_window_days (msa_of sy cfg today req s0).2

/-- Embeds backend/main.py lines 474-524: best-effort example-data
generation when example mode is requested (`max(3, window)` days, result
ignored), persisting the requested settings with the possibly downgraded
window, and the debt recalculation over both partitions when the target
changed by more than the 0.001 tolerance. -/
def finalize_update (sy : Syncer) (cfg : EnvCfg) (req : SettingsRequest)
    (window : ℤ) (s : Store) (calls : ℕ) : UpdateOutcome :=
  let gen : Store × ℕ :=
    if req.use_dummy_data then ((sy.run (max 3 window) true s).2, calls + 1)
    else (s, calls)
  let rec_ : Store × Option ℕ :=
    if (1 : ℚ)/1000 < |cfg.current_target - req.target_sleep_hours| then
      let r := recalculate_debt_for_all_records req.target_sleep_hours gen.1
      (r.2, some r.1)
    else (gen.1, none)
  ⟨.ok req.target_sleep_hours window req.use_dummy_data, rec_.1, gen.2, true, rec_.2⟩

/-- Embeds the `update_settings` route (backend/main.py lines 261-529):
input validation first (before any side effect), then the pre-fallback
sync branches, then — when real mode is requested, availability falls
short of the requested window, and no branch has synced — the main sync
attempt with fallback windows and the insufficient-data rejection, and
finally example-data generation, settings persistence and conditional
debt recalculation. -/
def update_settings (sy : Syncer) (cfg : EnvCfg) (today : ℤ)
    (req : SettingsRequest) (s0 : Store) : UpdateOutcome :=
  if req.target_sleep_hours ≤ 0 then ⟨.validationError, s0, 0, false, none⟩
  else if req.stats_window_days < 1 then ⟨.validationError, s0, 0, false, none⟩
  else
    let pre := pre_sync_stages sy cfg today req s0
    if req.use_dummy_data = false ∧ (pre.avail : ℤ) < req.stats_window_days ∧
        pre.hasSynced = false then
      let mfb := mfb_of sy cfg today req s0
      if mfb.2 then
        ⟨.insufficientData, mfb.1.store, pre.calls + mfb.1.calls, false, none⟩
      else
        finalize_update sy cfg req mfb.1.window mfb.1.store (pre.calls + mfb.1.calls)
    else
      finalize_update sy cfg req req.stats_window_days pre.store pre.calls

/-- A sample stored row used by concrete test instances: one tracked day
with 7 hours of sleep against a target of 8. -/
def demoRow (d : ℤ) : Row := ⟨d, some 7, 8, 1⟩

/-- Scenario-A style store: real samples for days 3..9, nothing for
day 10 ("today"), example partition empty. -/
def c1_store : Store :=
  ⟨[demoRow 9, demoRow 8, demoRow 7, demoRow 6, demoRow 5, demoRow 4, demoRow 3], []⟩

/-- Store with a real sample for today (day 10) and an example sample
three days earlier only. -/
def c9_store : Store := ⟨[demoRow 10], [demoRow 7]⟩

/-- A mixed sample list: the first record carries a precomputed debt,
the second carries only its own sleep and target hours. -/
def c2_mixed : List PySample := [⟨some 1, none, none⟩, ⟨none, some 5, some 8⟩]

/-- A list whose records all carry precomputed debts. -/
def c2_sumList : List PySample := [⟨some 1, none, none⟩, ⟨some 2, none, none⟩]

/-- A list whose records all lack a precomputed debt but are
self-describing. -/
def c2_deriveList : List PySample := [⟨none, some 5, some 8⟩, ⟨none, some 9, some 8⟩]

/-- Store with 14 consecutive real days ending today (day 0). -/
def c3_store : Store := ⟨(List.range 14).map fun i => demoRow (-(i : ℤ)), []⟩

/-- A Syncer whose 14-day sync reports plain failure while every other
request succeeds without changing the store. -/
def c3_syncer : Syncer := ⟨fun days _ st => if days = 14 then (.failed, st) else (.ok, st)⟩

/-- Store with real days 96..99 (four days inside a 5-day window ending
yesterday relative to day 100) plus two older days 79 and 80 inside the
35-day lookback. -/
def c4_store : Store :=
  ⟨[demoRow 99, demoRow 98, demoRow 97, demoRow 96, demoRow 80, demoRow 79], []⟩

/-- `c4_store` after a successful sync that adds day 95, completing the
5-day window ending yesterday. -/
def c4_store2 : Store := ⟨demoRow 95 :: c4_store.sleep_data, []⟩

/-- A Syncer that always succeeds and leaves the store as `c4_store2`. -/
def c4_syncer : Syncer := ⟨fun _ _ _ => (.ok, c4_store2)⟩

/-- Settings environment: current target 8h, stored window 5 in real
mode, `.env` default window 10. -/
def c4_cfg : EnvCfg := ⟨8, some (5, false), 10⟩

/-- A settings request for a 5-day window in real mode. -/
def c4_req : SettingsRequest := ⟨8, 5, false⟩

/-- A settings request for a 30-day window in real mode. -/
def c4w_req : SettingsRequest := ⟨8, 30, false⟩

/-- A Syncer that always reports plain failure and leaves the store
unchanged. -/
def failSyncer : Syncer := ⟨fun _ _ st => (.failed, st)⟩

/-- A Syncer that always succeeds and leaves the store unchanged. -/
def idSyncer : Syncer := ⟨fun _ _ st => (.ok, st)⟩

/-- Store with one real row and one example row whose `sleep_hours` is
NULL. -/
def c5_store : Store := ⟨[⟨1, some 7, 8, 1⟩], [⟨2, none, 8, 8⟩]⟩

/-- Store whose single real row has a NULL `sleep_hours`. -/
def c10_store : Store := ⟨[⟨1, none, 8, 8⟩], []⟩

theorem recalcSweep_eq (upd : Row → Option Row) (rows : List Row) :
    recalcSweep upd rows =
      ((rows.filter fun r => (upd r).isSome).length,
       rows.map fun r => (upd r).getD r) := by
  induction rows with
  | nil => rfl
  | cons r rs ih =>
    simp only [recalcSweep, ih, List.filter, List.map]
    cases h : upd r <;> simp [h]

theorem fallback_loop_cases (sy : Syncer) (dum : Bool) (today : ℤ) (thd : Bool)
    (L : List ℤ) : ∀ (s : Store) (w : ℤ) (a : ℕ),
    ((fallback_loop sy dum today thd L s w a).window = w ∧
     (fallback_loop sy dum today thd L s w a).avail = a) ∨
    ((fallback_loop sy dum today thd L s w a).window ∈ L ∧
     ((fallback_loop sy dum today thd L s w a).window : ℤ) ≤
       ((fallback_loop sy dum today thd L s w a).avail : ℤ)) := by
  induction L with
  | nil => intro s w a; exact Or.inl ⟨rfl, rfl⟩
  | cons c rest ih =>
    intro s w a
    simp only [fallback_loop]
    rcases hrun : sy.run (if thd then c else c + 1) false s with ⟨res, s1⟩
    cases res
    · simp only []
      split
      · next h => exact Or.inr ⟨List.mem_cons_self _ _, h⟩
      · rcases ih s1 w a with ⟨h1, h2⟩ | ⟨h1, h2⟩
        · exact Or.inl ⟨h1, h2⟩
        · exact Or.inr ⟨List.mem_cons_of_mem _ h1, h2⟩
    · rcases ih s1 w a with ⟨h1, h2⟩ | ⟨h1, h2⟩
      · exact Or.inl ⟨h1, h2⟩
      · exact Or.inr ⟨List.mem_cons_of_mem _ h1, h2⟩
    · simp only []
      split
      · next h => exact Or.inr ⟨List.mem_cons_self _ _, h⟩
      · rcases ih s1 w a with ⟨h1, h2⟩ | ⟨h1, h2⟩
        · exact Or.inl ⟨h1, h2⟩
        · exact Or.inr ⟨List.mem_cons_of_mem _ h1, h2⟩

theorem finalize_update_result (sy : Syncer) (cfg : EnvCfg) (req : SettingsRequest)
    (window : ℤ) (s : Store) (calls : ℕ) :
    (finalize_update sy cfg req window s calls).result =
      .ok req.target_sleep_hours window req.use_dummy_data ∧
    (finalize_update sy cfg req window s calls).settingsSaved = true := by
  constructor <;> rfl

theorem update_settings_branch (sy : Syncer) (cfg : EnvCfg) (today : ℤ)
    (req : SettingsRequest) (s0 : Store)
    (h1 : ¬ req.target_sleep_hours ≤ 0) (h2 : ¬ req.stats_window_days < 1)
    (h3 : req.use_dummy_data = false)
    (ha : ((pre_sync_stages sy cfg today req s0).avail : ℤ) < req.stats_window_days)
    (hs : (pre_sync_stages sy cfg today req s0).hasSynced = false) :
    update_settings sy cfg today req s0 =
      if (mfb_of sy cfg today req s0).2 then
        ⟨.insufficientData, (mfb_of sy cfg today req s0).1.store,
          (pre_sync_stages sy cfg today req s0).calls +
            (mfb_of sy cfg today req s0).1.calls, false, none⟩
      else
        finalize_update sy cfg req (mfb_of sy cfg today req s0).1.window
          (mfb_of sy cfg today req s0).1.store
          ((pre_sync_stages sy cfg today req s0).calls +
            (mfb_of sy cfg today req s0).1.calls) := by
  unfold update_settings
  rw [if_neg h1, if_neg h2, if_pos ⟨h3, ha, hs⟩]

theorem update_settings_nobranch (sy : Syncer) (cfg : EnvCfg) (today : ℤ)
    (req : SettingsRequest) (s0 : Store)
    (h1 : ¬ req.target_sleep_hours ≤ 0) (h2 : ¬ req.stats_window_days < 1)
    (hb : ¬ (req.use_dummy_data = false ∧
      ((pre_sync_stages sy cfg today req s0).avail : ℤ) < req.stats_window_days ∧
      (pre_sync_stages sy cfg today req s0).hasSynced = false)) :
    update_settings sy cfg today req s0 =
      finalize_update sy cfg req req.stats_window_days
        (pre_sync_stages sy cfg today req s0).store
        (pre_sync_stages sy cfg today req s0).calls := by
  unfold update_settings
  rw [if_neg h1, if_neg h2, if_neg hb]

theorem mfb_snd_iff (sy : Syncer) (cfg : EnvCfg) (today : ℤ)
    (req : SettingsRequest) (s0 : Store) :
    ((mfb_of sy cfg today req s0).2 = true ↔
      ((msa_of sy cfg today req s0).2 : ℤ) < req.stats_window_days ∧
      ((fbl_of sy cfg today req s0).avail : ℤ) < 7) := by
  simp only [mfb_of, main_fallback_stage, msa_of, fbl_of]
  split
  · next h => simp [h]
  · next h => simp [h]

/-- C1: for every window length N >= 1 and every origin partition, the
window statistics computation (`get_sleep_statistics` and
`count_available_days_in_window`) uses `[today-(N-1), today]` when a
sample dated today exists in the selected partition and
`[today-N, today-1]` when it does not, so that when today has no data,
today never contributes to any aggregate. -/
theorem window_framing_c1 (s : Store) (inc : Bool) (today n : ℤ) (_hn : 1 ≤ n) :
    (todayExists (partitionOf s inc) today = true →
      get_sleep_statistics s inc today n =
        specWindowAggregate (partitionOf s inc) (today - (n - 1)) today true ∧
      count_available_days_in_window s inc today n =
        (windowRows (partitionOf s inc) (today - (n - 1)) today).length) ∧
    (todayExists (partitionOf s inc) today = false →
      get_sleep_statistics s inc today n =
        specWindowAggregate (partitionOf s inc) (today - n) (today - 1) false ∧
      count_available_days_in_window s inc today n =
        (windowRows (partitionOf s inc) (today - n) (today - 1)).length ∧
      ∀ r ∈ windowRows (partitionOf s inc) (today - n) (today - 1), r.date ≠ today) := by
  constructor
  · intro hte
    constructor
    · simp only [get_sleep_statistics, specWindowAggregate, hte, if_true]
      split
      · next h0 =>
        rw [List.length_eq_zero.mp h0]
        simp
      · rfl
    · simp only [count_available_days_in_window, hte, if_true]
  · intro hte
    refine ⟨?_, ?_, ?_⟩
    · simp only [get_sleep_statistics, specWindowAggregate, hte, Bool.false_eq_true, if_false]
      split
      · next h0 =>
        rw [List.length_eq_zero.mp h0]
        simp
      · rfl
    · simp only [count_available_days_in_window, hte, Bool.false_eq_true, if_false]
    · intro r hr
      have hf := List.of_mem_filter hr
      have h2 : r.date ≤ today - 1 := by
        simpa using (Bool.and_elim_right hf)
      omega

/-- C1 witness: Scenario A — today is day 10, real samples exist for
days 3..9 only, so the 7-day statistics window is `[3, 9]`, today is
excluded, and the day-count agrees. -/
theorem window_framing_c1_witness :
    get_sleep_statistics c1_store false 10 7 =
      specWindowAggregate (partitionOf c1_store false) (10 - 7) (10 - 1) false ∧
    count_available_days_in_window c1_store false 10 7 =
      (windowRows (partitionOf c1_store false) (10 - 7) (10 - 1)).length := by
  have h := (window_framing_c1 c1_store false 10 7 (by norm_num)).2 (by decide)
  exact ⟨h.1, h.2.1⟩

/-- C9: `count_example_data_in_window` decides whether the window ends
at today by checking today's presence in EITHER partition, so a
real-origin sample for today shifts the example-data counting window to
`[today-(N-1), today]` even when no example sample exists for today —
while `count_available_days_in_window` on the example partition still
uses `[today-N, today-1]`. -/
theorem example_window_shift_c9 (s : Store) (today n : ℤ)
    (hr : todayExists s.sleep_data today = true)
    (he : todayExists s.example_sleep_data today = false) :
    count_example_data_in_window s today n =
      (windowRows s.example_sleep_data (today - (n - 1)) today).length ∧
    count_available_days_in_window s true today n =
      (windowRows s.example_sleep_data (today - n) (today - 1)).length := by
  constructor
  · simp only [count_example_data_in_window, hr, Bool.true_or, if_true]
  · simp only [count_available_days_in_window, partitionOf, if_true, he,
      Bool.false_eq_true, if_false]

/-- C9 witness: today is day 10, a real sample exists for day 10 and
the only example sample is on day 7; with a 3-day window the example
counting window is shifted to `[8, 10]` (count 0) while the example
availability count uses `[7, 9]` (count 1). -/
theorem example_window_shift_c9_witness :
    count_example_data_in_window c9_store 10 3 = 0 ∧
    count_available_days_in_window c9_store true 10 3 = 1 := by
  have h := example_window_shift_c9 c9_store 10 3 (by decide) (by decide)
  exact ⟨h.1.trans (by decide), h.2.trans (by decide)⟩

/-- C2 (amended): `dailyDebt(s, t) = t - s` always; and `cumulativeDebt`
agrees with the spec's per-sample formula whenever the sample list is
uniformly shaped — either every sample carries a precomputed debt, or
no sample does and each carries its own sleep and target hours (in which
case the global current target is never consulted).  On mixed lists the
code follows the first sample's shape instead (see the counterexample). -/
theorem debt_identity_c2 (g s t : ℚ) (samples : List PySample) :
    calculate_daily_debt s t = t - s ∧
    ((∀ r ∈ samples, r.debt.isSome = true) →
      calculate_sleep_debt g samples = specCumulativeDebt samples) ∧
    ((∀ r ∈ samples, r.debt = none ∧ r.sleep_hours.isSome = true ∧
        r.target_hours.isSome = true) →
      calculate_sleep_debt g samples = specCumulativeDebt samples) := by
  refine ⟨rfl, ?_, ?_⟩
  · intro h
    cases samples with
    | nil => rfl
    | cons first rest =>
      have hf : first.debt.isSome = true := h first (List.mem_cons_self _ _)
      simp only [calculate_sleep_debt, hf, if_true, specCumulativeDebt]
      congr 1
      apply List.map_congr_left
      intro r hr
      rcases Option.isSome_iff_exists.mp (h r hr) with ⟨d, hd⟩
      simp [hd]
  · intro h
    cases samples with
    | nil => rfl
    | cons first rest =>
      have hf : first.debt = none := (h first (List.mem_cons_self _ _)).1
      simp only [calculate_sleep_debt, hf, Option.isSome_none, Bool.false_eq_true,
        if_false, specCumulativeDebt]
      congr 1
      apply List.map_congr_left
      intro r hr
      rcases h r hr with ⟨hd, _, ht⟩
      rcases Option.isSome_iff_exists.mp ht with ⟨v, hv⟩
      simp [hd, hv]

/-- C2 witness: on a list whose samples all carry debts and on a list
whose samples all lack one but are self-describing, the code agrees
with the spec formula (with global target 3, which the derivation never
consults). -/
theorem debt_identity_c2_witness :
    calculate_sleep_debt 3 c2_sumList = specCumulativeDebt c2_sumList ∧
    calculate_sleep_debt 3 c2_deriveList = specCumulativeDebt c2_deriveList := by
  exact ⟨(debt_identity_c2 3 0 0 c2_sumList).2.1 (by decide),
         (debt_identity_c2 3 0 0 c2_deriveList).2.2 (by decide)⟩

/-- C2 counterexample: on a mixed list — first sample with a
precomputed debt of 1, second lacking a debt but self-describing with
sleep 5 against target 8 — the code returns 1 (the debt-less sample
contributes 0.0, not its derived debt 3), while the claim's formula
gives 4. -/
theorem debt_identity_c2_counterexample :
    calculate_sleep_debt 8 c2_mixed ≠ specCumulativeDebt c2_mixed ∧
    calculate_sleep_debt 8 c2_mixed = 1 ∧ specCumulativeDebt c2_mixed = 4 := by
  have h1 : calculate_sleep_debt 8 c2_mixed = 1 := by
    norm_num [calculate_sleep_debt, c2_mixed]
  have h2 : specCumulativeDebt c2_mixed = 4 := by
    norm_num [specCumulativeDebt, c2_mixed, calculate_daily_debt]
  refine ⟨?_, h1, h2⟩
  rw [h1, h2]
  norm_num

/-- C5: after the recalculation sweep with new target T, every row of
both origin partitions carries `target_hours = T` and
`debt = T - sleepHours` (NULL sleep read as 0, so for a present value s
the debt is exactly `T - s`); the returned count is the number of
successfully updated rows across both partitions (here all of them);
and, in the generic sweep skeleton, a row whose update fails is skipped
in place while every other row is still updated — one failure never
aborts the sweep. -/
theorem recalc_consistency_c5 (T : ℚ) (s : Store) (upd : Row → Option Row)
    (rows : List Row) :
    (∀ r2 ∈ (recalculate_debt_for_all_records T s).2.sleep_data,
      r2.target_hours = T ∧ r2.debt = T - r2.sleep_hours.getD 0) ∧
    (∀ r2 ∈ (recalculate_debt_for_all_records T s).2.example_sleep_data,
      r2.target_hours = T ∧ r2.debt = T - r2.sleep_hours.getD 0) ∧
    (recalculate_debt_for_all_records T s).1 =
      s.sleep_data.length + s.example_sleep_data.length ∧
    (recalcSweep upd rows).2 = rows.map (fun r => (upd r).getD r) ∧
    (recalcSweep upd rows).1 = (rows.filter fun r => (upd r).isSome).length := by
  have hsweep := recalcSweep_eq (fun r => some (recalcRow T r))
  refine ⟨?_, ?_, ?_, ?_, ?_⟩
  · intro r2 h2
    simp only [recalculate_debt_for_all_records, hsweep, Option.getD_some,
      List.mem_map] at h2
    rcases h2 with ⟨r, _, rfl⟩
    exact ⟨rfl, rfl⟩
  · intro r2 h2
    simp only [recalculate_debt_for_all_records, hsweep, Option.getD_some,
      List.mem_map] at h2
    rcases h2 with ⟨r, _, rfl⟩
    exact ⟨rfl, rfl⟩
  · simp [recalculate_debt_for_all_records, hsweep]
  · rw [recalcSweep_eq]
  · rw [recalcSweep_eq]

/-- C5 witness: with new target 9 over a store holding one real row
(sleep 7) and one example NULL-sleep row, the sweep reports 2 updated
rows, and the updated real row satisfies the recalculation identity;
the generic skeleton run with an always-failing update leaves a
singleton list unchanged and counts 0. -/
theorem recalc_consistency_c5_witness :
    (recalcRow 9 (⟨1, some 7, 8, 1⟩ : Row)).target_hours = 9 ∧
    (recalcRow 9 (⟨1, some 7, 8, 1⟩ : Row)).debt =
      9 - ((⟨1, some 7, 8, 1⟩ : Row)).sleep_hours.getD 0 ∧
    (recalculate_debt_for_all_records 9 c5_store).1 = 2 ∧
    (recalcSweep (fun _ => none) [(⟨1, some 7, 8, 1⟩ : Row)]).2 =
      [(⟨1, some 7, 8, 1⟩ : Row)] := by
  have h := recalc_consistency_c5 9 c5_store (fun _ => none) [(⟨1, some 7, 8, 1⟩ : Row)]
  have hmem : recalcRow 9 (⟨1, some 7, 8, 1⟩ : Row) ∈
      (recalculate_debt_for_all_records 9 c5_store).2.sleep_data := by
    simp [recalculate_debt_for_all_records, recalcSweep, c5_store]
  have h1 := h.1 _ hmem
  refine ⟨h1.1, ?_, h.2.2.1.trans (by decide), h.2.2.2.1.trans (by simp)⟩
  exact h1.2

/-- C10: a stored real row whose `sleep_hours` is NULL is not skipped by
the recalculation sweep: it is treated as 0.0 hours, its updated debt is
exactly the new target, and it is counted among the successfully updated
rows (the count covers every row of both partitions). -/
theorem null_sleep_recalc_c10 (T : ℚ) (s : Store) (r : Row)
    (hm : r ∈ s.sleep_data) (hn : r.sleep_hours = none) :
    recalcRow T r ∈ (recalculate_debt_for_all_records T s).2.sleep_data ∧
    (recalcRow T r).debt = T ∧ (recalcRow T r).target_hours = T ∧
    (recalculate_debt_for_all_records T s).1 =
      s.sleep_data.length + s.example_sleep_data.length := by
  have hsweep := recalcSweep_eq (fun x => some (recalcRow T x))
  refine ⟨?_, ?_, rfl, ?_⟩
  · simp only [recalculate_debt_for_all_records, hsweep, Option.getD_some]
    exact List.mem_map_of_mem _ hm
  · simp [recalcRow, hn]
  · simp [recalculate_debt_for_all_records, hsweep]

/-- C10 witness: with new target 9, the NULL-sleep row dated day 1 is
updated in place, its new debt equals 9, and it counts toward the 1
updated row reported. -/
theorem null_sleep_recalc_c10_witness :
    recalcRow 9 (⟨1, none, 8, 8⟩ : Row) ∈
      (recalculate_debt_for_all_records 9 c10_store).2.sleep_data ∧
    (recalcRow 9 (⟨1, none, 8, 8⟩ : Row)).debt = 9 ∧
    (recalculate_debt_for_all_records 9 c10_store).1 = 1 := by
  have h := null_sleep_recalc_c10 9 c10_store ⟨1, none, 8, 8⟩ (by simp [c10_store]) rfl
  exact ⟨h.1, h.2.1, h.2.2.2.trans (by decide)⟩

/-- C6 evidence: at 08:02 local time (28920 s) the embedded
`_should_run_sync_now` reports NOT due with next instant 08:30, even
though 08:02 lies within 5 minutes of the scheduled instant 08:00 —
the tolerance is applied only against the first scheduled instant at or
after the current time, so late wake-ups are never due.  At 08:06 it is
likewise not due (next 08:30), at exactly 08:00 it is due, and at 07:57
(5 minutes BEFORE 08:00) it is due. -/
theorem scheduler_tolerance_c6 :
    should_run_sync_now 28920 = (false, 30600) ∧
    ((28920 : ℤ) - 28800).natAbs ≤ 300 ∧
    28800 ∈ sync_times ∧
    should_run_sync_now 29160 = (false, 30600) ∧
    should_run_sync_now 28800 = (true, 28800) ∧
    should_run_sync_now 28620 = (true, 28800) := by
  decide

/-- C7: once `todayFound` is true, a loop iteration on the same calendar
day leaves the state untouched and never invokes the Syncer; the flag is
reset exactly on day rollover (`lastChecked` differs from the wall-clock
date), after which attempts resume — on a new day at a due instant in
real mode with today's data absent, the Syncer is invoked again. -/
theorem scheduler_idempotence_c7 (e : SchedEnv) (st : SchedState) (d : ℤ) :
    (st.todayFound = true → st.lastChecked = some e.today → e.nowTime < 86400 →
      sched_step e st = (⟨true, some e.today⟩, false)) ∧
    (st.lastChecked = some d → d ≠ e.today →
      (should_run_sync_now e.nowTime).1 = false →
      sched_step e st = (⟨false, some e.today⟩, false)) ∧
    (st.lastChecked = some d → d ≠ e.today →
      (should_run_sync_now e.nowTime).1 = true →
      e.useDummy = false → e.hasTodayBefore = false →
      (sched_step e st).2 = true) := by
  refine ⟨?_, ?_, ?_⟩
  · intro hf hl hnow
    have hwait : (0 : ℤ) < (86400 : ℤ) - (e.nowTime : ℤ) + 25200 := by omega
    simp [sched_step, hl, hf, hwait]
  · intro hl hd hrun
    simp [sched_step, hl, hd, hrun]
  · intro hl hd hrun hdum hbef
    cases hs : e.syncSuccess <;> cases ha : e.hasTodayAfter <;>
      simp [sched_step, perform_auto_sync, hl, hd, hrun, hdum, hbef, hs, ha]

/-- C7 witness: with the flag set and `lastChecked` equal to today
(day 5, 08:20), the step is a no-op that never invokes the Syncer;
after a rollover to day 5 from day 4, at the due instant 07:00 in real
mode with no data for today, the Syncer is invoked again. -/
theorem scheduler_idempotence_c7_witness :
    sched_step ⟨5, 30000, false, false, false, false⟩ ⟨true, some 5⟩ =
      (⟨true, some 5⟩, false) ∧
    (sched_step ⟨5, 25200, false, false, false, false⟩ ⟨true, some 4⟩).2 = true := by
  constructor
  · exact (scheduler_idempotence_c7 ⟨5, 30000, false, false, false, false⟩
      ⟨true, some 5⟩ 0).1 rfl rfl (by norm_num)
  · exact (scheduler_idempotence_c7 ⟨5, 25200, false, false, false, false⟩
      ⟨true, some 4⟩ 4).2.2 rfl (by decide) (by decide) rfl rfl

/-- C8: a settings-update request with non-positive target hours or a
window below 1 is rejected with a validation error before any side
effect: the Syncer is never invoked, the store is returned unchanged,
the settings are not persisted and no recalculation runs. -/
theorem validation_before_side_effects_c8 (sy : Syncer) (cfg : EnvCfg) (today : ℤ)
    (req : SettingsRequest) (s0 : Store)
    (h : req.target_sleep_hours ≤ 0 ∨ req.stats_window_days < 1) :
    update_settings sy cfg today req s0 = ⟨.validationError, s0, 0, false, none⟩ := by
  unfold update_settings
  rcases h with h | h
  · rw [if_pos h]
  · by_cases h1 : req.target_sleep_hours ≤ 0
    · rw [if_pos h1]
    · rw [if_neg h1, if_pos h]

/-- C8 witness: a request with target 0 hours is rejected outright —
same store, no Syncer call, nothing saved, no recalculation. -/
theorem validation_before_side_effects_c8_witness :
    update_settings idSyncer ⟨8, some (7, false), 10⟩ 0
      ⟨0, 7, false⟩ ⟨[], []⟩ = ⟨.validationError, ⟨[], []⟩, 0, false, none⟩ := by
  exact validation_before_side_effects_c8 idSyncer ⟨8, some (7, false), 10⟩ 0
    ⟨0, 7, false⟩ ⟨[], []⟩ (Or.inl le_rfl)

/-- C3 (amended): fallback selection only ever moves down the fixed
descending steps (the result window is either the requested one — with
`available_days` untouched — or a member of the candidate list, strictly
smaller and covered by its own availability); a candidate whose sync
succeeds and whose resulting availability covers it is accepted on the
spot, stopping the loop; a candidate whose sync reports plain failure is
skipped WITHOUT an availability check (see the counterexample); and on
the non-error path of a settings update that entered the fallback stage,
the response carries the accepted (possibly downgraded) window. -/
theorem fallback_monotonic_c3 (sy : Syncer) (dum : Bool) (today : ℤ) (thd : Bool)
    (s : Store) (w : ℤ) (a : ℕ) :
    (((fallback_loop sy dum today thd (candidates w) s w a).window = w ∧
      (fallback_loop sy dum today thd (candidates w) s w a).avail = a) ∨
     ((fallback_loop sy dum today thd (candidates w) s w a).window ∈ candidates w ∧
      (fallback_loop sy dum today thd (candidates w) s w a).window < w ∧
      ((fallback_loop sy dum today thd (candidates w) s w a).window : ℤ) ≤
        ((fallback_loop sy dum today thd (candidates w) s w a).avail : ℤ))) ∧
    (∀ (c : ℤ) (rest : List ℤ) (s1 : Store),
      sy.run (if thd then c else c + 1) false s = (.ok, s1) →
      (c : ℤ) ≤ (count_available_days_in_window s1 dum today c : ℤ) →
      fallback_loop sy dum today thd (c :: rest) s w a =
        ⟨c, count_available_days_in_window s1 dum today c, s1, 1⟩) ∧
    (∀ (c : ℤ) (rest : List ℤ) (s1 : Store),
      sy.run (if thd then c else c + 1) false s = (.failed, s1) →
      (fallback_loop sy dum today thd (c :: rest) s w a).window =
        (fallback_loop sy dum today thd rest s1 w a).window) ∧
    (∀ (cfg : EnvCfg) (req : SettingsRequest) (s0 : Store),
      ¬ req.target_sleep_hours ≤ 0 → ¬ req.stats_window_days < 1 →
      req.use_dummy_data = false →
      ((pre_sync_stages sy cfg today req s0).avail : ℤ) < req.stats_window_days →
      (pre_sync_stages sy cfg today req s0).hasSynced = false →
      (mfb_of sy cfg today req s0).2 = false →
      (update_settings sy cfg today req s0).result =
        .ok req.target_sleep_hours (mfb_of sy cfg today req s0).1.window
          req.use_dummy_data) := by
  refine ⟨?_, ?_, ?_, ?_⟩
  · rcases fallback_loop_cases sy dum today thd (candidates w) s w a with h | ⟨h1, h2⟩
    · exact Or.inl h
    · refine Or.inr ⟨h1, ?_, h2⟩
      by_cases h30 : w = 30
      · subst h30
        rw [show candidates (30 : ℤ) = [14, 7] from by decide] at h1 ⊢
        simp only [List.mem_cons, List.not_mem_nil, or_false] at h1
        rcases h1 with h | h <;> omega
      · by_cases h14 : w = 14
        · subst h14
          rw [show candidates (14 : ℤ) = [7] from by decide] at h1 ⊢
          simp only [List.mem_cons, List.not_mem_nil, or_false] at h1
          omega
        · have hc : candidates w = [] := by
            unfold candidates
            rw [if_neg h30, if_neg h14]
          rw [hc] at h1
          simp at h1
  · intro c rest s1 hrun hge
    simp only [fallback_loop, hrun, hge, if_pos]
  · intro c rest s1 hrun
    simp only [fallback_loop, hrun]
  · intro cfg req s0 h1 h2 h3 ha hs hm
    rw [update_settings_branch sy cfg today req s0 h1 h2 h3 ha hs, if_neg (by simp [hm])]
    exact (finalize_update_result sy cfg req (mfb_of sy cfg today req s0).1.window
      (mfb_of sy cfg today req s0).1.store _).1

/-- C3 counterexample: requested window 30, store with 14 real days
ending today; the 14-day candidate's sync reports plain failure although
14 days are available for it, so the loop skips it without checking and
accepts the 7-day candidate instead of the first satisfied one. -/
theorem fallback_monotonic_c3_counterexample :
    (fallback_loop c3_syncer false 0 true (candidates 30) c3_store 30 10).window = 7 ∧
    c3_syncer.run 14 false c3_store = (.failed, c3_store) ∧
    (14 : ℤ) ≤ (count_available_days_in_window c3_store false 0 14 : ℤ) ∧
    candidates 30 = [14, 7] := by
  decide

/-- C3 witness: a 14-day request whose single fallback candidate 7 syncs
successfully with 7 days then available is accepted immediately,
downgrading the window to 7. -/
theorem fallback_monotonic_c3_witness :
    fallback_loop c3_syncer false 0 true [7] c3_store 14 3 = ⟨7, 7, c3_store, 1⟩ := by
  have h := (fallback_monotonic_c3 c3_syncer false 0 true c3_store 14 3).2.1
    7 [] c3_store (by decide) (by decide)
  have hc : count_available_days_in_window c3_store false 0 7 = 7 := by decide
  rw [hc] at h
  exact h

/-- C4 (amended): with validation passed in real-data mode, the
settings update rejects with the insufficient-data error exactly when
pre-fallback availability fell short of the requested window with no
earlier sync, the main sync attempt still left availability short of
the requested window, and after the fallback windows fewer than 7 days
are available; on that rejection nothing is persisted.  (When the main
sync attempt satisfies the requested window, the update proceeds even
if fewer than 7 days are available — see the counterexample.) -/
theorem insufficient_data_c4 (sy : Syncer) (cfg : EnvCfg) (today : ℤ)
    (req : SettingsRequest) (s0 : Store)
    (h1 : ¬ req.target_sleep_hours ≤ 0) (h2 : ¬ req.stats_window_days < 1)
    (h3 : req.use_dummy_data = false) :
    ((update_settings sy cfg today req s0).result = .insufficientData ↔
      (((pre_sync_stages sy cfg today req s0).avail : ℤ) < req.stats_window_days ∧
       (pre_sync_stages sy cfg today req s0).hasSynced = false ∧
       ((msa_of sy cfg today req s0).2 : ℤ) < req.stats_window_days ∧
       ((fbl_of sy cfg today req s0).avail : ℤ) < 7)) ∧
    ((update_settings sy cfg today req s0).result = .insufficientData →
      (update_settings sy cfg today req s0).settingsSaved = false ∧
      (update_settings sy cfg today req s0).store = (fbl_of sy cfg today req s0).store) := by
  have hmfb := mfb_snd_iff sy cfg today req s0
  by_cases hb : ((pre_sync_stages sy cfg today req s0).avail : ℤ) <
      req.stats_window_days ∧ (pre_sync_stages sy cfg today req s0).hasSynced = false
  · rw [update_settings_branch sy cfg today req s0 h1 h2 h3 hb.1 hb.2]
    by_cases hm : (mfb_of sy cfg today req s0).2 = true
    · rw [if_pos hm]
      have hms := hmfb.mp hm
      constructor
      · constructor
        · intro _
          exact ⟨hb.1, hb.2, hms.1, hms.2⟩
        · intro _
          rfl
      · intro _
        refine ⟨rfl, ?_⟩
        show (mfb_of sy cfg today req s0).1.store = (fbl_of sy cfg today req s0).store
        simp only [mfb_of, main_fallback_stage, msa_of, fbl_of]
        rw [if_pos (by exact hms.1)]
    · rw [if_neg (by simpa using hm)]
      have hok := finalize_update_result sy cfg req (mfb_of sy cfg today req s0).1.window
        (mfb_of sy cfg today req s0).1.store
        ((pre_sync_stages sy cfg today req s0).calls + (mfb_of sy cfg today req s0).1.calls)
      constructor
      · rw [hok.1]
        constructor
        · intro hcontra
          exact UpdateResult.noConfusion hcontra
        · intro hcontra
          exact absurd (hmfb.mpr ⟨hcontra.2.2.1, hcontra.2.2.2⟩) hm
      · intro hcontra
        rw [hok.1] at hcontra
        exact UpdateResult.noConfusion hcontra
  · rw [update_settings_nobranch sy cfg today req s0 h1 h2
      (by intro hx; exact hb ⟨hx.2.1, hx.2.2⟩)]
    have hok := finalize_update_result sy cfg req req.stats_window_days
      (pre_sync_stages sy cfg today req s0).store (pre_sync_stages sy cfg today req s0).calls
    constructor
    · rw [hok.1]
      constructor
      · intro hcontra
        exact UpdateResult.noConfusion hcontra
      · intro hcontra
        exact absurd ⟨hcontra.1, hcontra.2.1⟩ hb
    · intro hcontra
      rw [hok.1] at hcontra
      exact UpdateResult.noConfusion hcontra

/-- C4 counterexample: a request for a 5-day window over a store with 4
days available triggers the main sync attempt, which succeeds and brings
availability up to the requested 5 — the update then proceeds and
returns OK although only 5 days (< 7) are available after the sync
attempt and the (empty) fallback sequence, where the claim demands an
insufficient-data failure. -/
theorem insufficient_data_c4_counterexample :
    (update_settings c4_syncer c4_cfg 100 c4_req c4_store).result = .ok 8 5 false ∧
    (msa_of c4_syncer c4_cfg 100 c4_req c4_store).2 = 5 ∧
    ((msa_of c4_syncer c4_cfg 100 c4_req c4_store).2 : ℤ) < 7 ∧
    candidates c4_req.stats_window_days = [] := by
  decide

/-- C4 witness: a 30-day request over an empty store with a Syncer that
always fails exhausts the main attempt and both fallback candidates and
is rejected with the insufficient-data error, persisting nothing. -/
theorem insufficient_data_c4_witness :
    (update_settings failSyncer c4_cfg 0 c4w_req ⟨[], []⟩).result = .insufficientData ∧
    (update_settings failSyncer c4_cfg 0 c4w_req ⟨[], []⟩).settingsSaved = false := by
  have h := insufficient_data_c4 failSyncer c4_cfg 0 c4w_req ⟨[], []⟩
    (by decide) (by decide) rfl
  have hr := h.1.mpr ⟨by decide, by decide, by decide, by decide⟩
  exact ⟨hr, (h.2 hr).1⟩
